import Mathlib

/-!
Verification of the SDN-LoadBalancer repository.

This file gives a shallow embedding of the two source files
`Network-Simulation/fat_tree_topo.py` (the fat-tree topology builder
`treeTopo`) and `Network-Simulation/sdn_monitor.py` (the `SdnMonitor`
Ryu application), and proves or refutes the specification claims
about them.

Modelling conventions:
* Python dictionaries (`self.datapaths`, `self.port_stats_history`,
  `self.flow_stats_history`) are modelled as insertion-ordered
  association lists with `dictFind` / `dictStore` / `dictErase`.
* The Python stable builtin `sorted` is modelled by a stable insertion
  sort `pySorted`.
* Python floats (timestamps and the derived rates) are modelled as
  rationals; integer counters are natural numbers, and the
  subtractions the code performs on them are carried out in `ℚ`
  exactly as the source performs them on Python ints/floats.
* A CSV row written by `writer.writerow` is modelled as a structure
  holding the same fields in the same order.
-/

namespace SDNLB

/-! ### Generic helpers: Python dict and `sorted` -/

/-- Stable insertion of `x` into `l`: `x` is placed before the first
element `y` with `le x y`.  Building a sort from this models the
stability guarantee of the Python builtin `sorted`. -/
def insertSorted {α : Type} (le : α → α → Bool) (x : α) : List α → List α
  | [] => [x]
  | y :: ys => if le x y then x :: y :: ys else y :: insertSorted le x ys

/-- Model of the Python builtin `sorted(l, key=...)`, a stable sort with
respect to the total preorder `le`. -/
def pySorted {α : Type} (le : α → α → Bool) (l : List α) : List α :=
  l.foldr (insertSorted le) []

/-- Lookup in a Python dict modelled as an insertion-ordered
association list (`d[k]` / `k in d`). -/
def dictFind {κ ν : Type} [DecidableEq κ] : List (κ × ν) → κ → Option ν
  | [], _ => none
  | (k2, v) :: t, k => if k2 = k then some v else dictFind t k

/-- Store into a Python dict: `d[k] = v` replaces the value of an
existing key in place and otherwise appends the new binding. -/
def dictStore {κ ν : Type} [DecidableEq κ] : List (κ × ν) → κ → ν → List (κ × ν)
  | [], k, v => [(k, v)]
  | (k2, v2) :: t, k, v =>
    if k2 = k then (k2, v) :: t else (k2, v2) :: dictStore t k v

/-- Delete from a Python dict: `del d[k]`. -/
def dictErase {κ ν : Type} [DecidableEq κ] : List (κ × ν) → κ → List (κ × ν)
  | [], _ => []
  | (k2, v2) :: t, k => if k2 = k then t else (k2, v2) :: dictErase t k

/-- Membership test on a Python dict: `k in d`. -/
def dictContains {κ ν : Type} [DecidableEq κ] (d : List (κ × ν)) (k : κ) : Bool :=
  (dictFind d k).isSome

/-! ### Topology builder (`fat_tree_topo.py`, `treeTopo`) -/

/-- A node of the Mininet network built by `treeTopo`.  The payload is
the 1-based index used in the node name (`c1`, `a1`, `e1`, `h1`, ...). -/
inductive Node : Type
  | core (i : Nat)
  | agg (i : Nat)
  | edge (i : Nat)
  | host (i : Nat)
  deriving DecidableEq

/-- One `net.addLink(src, dst, bw=bw)` call, in argument order. -/
structure Link where
  src : Node
  dst : Node
  bw : Nat
  deriving DecidableEq

/-- The `core_switches` list: `addSwitch` of `c1` and `c2`, from `for i in range(2)`. -/
def coreSwitches : List Node := (List.range 2).map (fun i => Node.core (i + 1))

/-- The `agg_switches` list: `addSwitch` of `a1` through `a4`, from `for i in range(4)`. -/
def aggSwitches : List Node := (List.range 4).map (fun i => Node.agg (i + 1))

/-- The `edge_switches` list: `addSwitch` of `e1` through `e8`, from `for i in range(8)`. -/
def edgeSwitches : List Node := (List.range 8).map (fun i => Node.edge (i + 1))

/-- The `hosts` list: `addHost` of `h1` through `h16`, from `for i in range(16)`. -/
def hosts : List Node := (List.range 16).map (fun i => Node.host (i + 1))

/-- Core-to-aggregation links: full mesh over `core_switches` and
`agg_switches` at `bw=100`. -/
def coreAggLinks : List Link :=
  coreSwitches.flatMap (fun c => aggSwitches.map (fun a => ⟨c, a, 100⟩))

/-- Aggregation-to-edge links: `for i in range(2)` take the slices
`agg_switches[i*2:(i+1)*2]` and `edge_switches[i*4:(i+1)*4]` and link
every aggregation switch of the slice to every edge switch of the
slice at `bw=50`. -/
def aggEdgeLinks : List Link :=
  (List.range 2).flatMap (fun i =>
    ((aggSwitches.drop (i * 2)).take ((i + 1) * 2 - i * 2)).flatMap (fun a =>
      ((edgeSwitches.drop (i * 4)).take ((i + 1) * 4 - i * 4)).map (fun e =>
        ⟨a, e, 50⟩)))

/-- Edge-to-host links: `for i in range(8): for j in range(2):
addLink(edge_switches[i], hosts[i*2+j], bw=10)`. -/
def edgeHostLinks : List Link :=
  (List.range 8).flatMap (fun i =>
    (List.range 2).map (fun j =>
      ⟨edgeSwitches.getD i (Node.edge 0), hosts.getD (i * 2 + j) (Node.host 0), 10⟩))

/-- All links added by `treeTopo`, in program order. -/
def treeTopoLinks : List Link := coreAggLinks ++ aggEdgeLinks ++ edgeHostLinks

/-- Is this a core-to-aggregation link? -/
def isCoreAggLink (l : Link) : Bool :=
  match l.src, l.dst with
  | Node.core _, Node.agg _ => true
  | _, _ => false

/-- Is this an aggregation-to-edge link? -/
def isAggEdgeLink (l : Link) : Bool :=
  match l.src, l.dst with
  | Node.agg _, Node.edge _ => true
  | _, _ => false

/-- Is this an edge-to-host link? -/
def isEdgeHostLink (l : Link) : Bool :=
  match l.src, l.dst with
  | Node.edge _, Node.host _ => true
  | _, _ => false

/-! ### Telemetry aggregator (`sdn_monitor.py`, `SdnMonitor`) -/

/-- Raw counters of one entry of an `OFPPortStatsReply` body. -/
structure PortStat where
  port_no : Nat
  rx_packets : Nat
  tx_packets : Nat
  rx_bytes : Nat
  tx_bytes : Nat
  rx_errors : Nat
  tx_errors : Nat
  deriving DecidableEq

/-- One row written to `port_stats.csv`, fields in header order. -/
structure PortRow where
  timestamp : ℚ
  datapath_id : Nat
  port_no : Nat
  rx_packets : Nat
  tx_packets : Nat
  rx_bytes : Nat
  tx_bytes : Nat
  rx_errors : Nat
  tx_errors : Nat
  rx_bps : ℚ
  tx_bps : ℚ
  rx_pps : ℚ
  tx_pps : ℚ
  error_rate_percent : ℚ
  deriving DecidableEq

/-- The `self.port_stats_history` dict: the key `f"{dpid}-{port_no}"`
is modelled structurally as the pair `(dpid, port_no)`; the value is
the previous `(stat, time)` pair. -/
abbrev PortHistory := List ((Nat × Nat) × (PortStat × ℚ))

/-- Lines 179-190 of `sdn_monitor.py`: the four delta rates, all zero
unless the key has a previous sample and `time_diff > 0`. -/
def portRates (hist : PortHistory) (port_key : Nat × Nat) (current_time : ℚ)
    (stat : PortStat) : ℚ × ℚ × ℚ × ℚ :=
  match dictFind hist port_key with
  | some (prev_stat, prev_time) =>
    let time_diff := current_time - prev_time
    if 0 < time_diff then
      (((stat.rx_bytes : ℚ) - (prev_stat.rx_bytes : ℚ)) * 8 / time_diff,
       ((stat.tx_bytes : ℚ) - (prev_stat.tx_bytes : ℚ)) * 8 / time_diff,
       ((stat.rx_packets : ℚ) - (prev_stat.rx_packets : ℚ)) / time_diff,
       ((stat.tx_packets : ℚ) - (prev_stat.tx_packets : ℚ)) / time_diff)
    else (0, 0, 0, 0)
  | none => (0, 0, 0, 0)

/-- One iteration of the loop body of `_port_stats_reply_handler`
(lines 168-206): skip reserved ports, compute the delta rates and the
error rate, store the new sample, emit the CSV row.  Returns the row
written (if any) and the updated history. -/
def processPortStat (datapath_id : Nat) (hist : PortHistory) (current_time : ℚ)
    (stat : PortStat) : Option PortRow × PortHistory :=
  if stat.port_no ≥ 0xffffff00 then (none, hist)
  else
    let port_key := (datapath_id, stat.port_no)
    let r := portRates hist port_key current_time stat
    let total_packets := stat.rx_packets + stat.tx_packets
    let total_errors := stat.rx_errors + stat.tx_errors
    let error_rate : ℚ :=
      if 0 < total_packets then (total_errors : ℚ) / (total_packets : ℚ) * 100 else 0
    (some ⟨current_time, datapath_id, stat.port_no, stat.rx_packets, stat.tx_packets,
       stat.rx_bytes, stat.tx_bytes, stat.rx_errors, stat.tx_errors,
       r.1, r.2.1, r.2.2.1, r.2.2.2, error_rate⟩,
     dictStore hist port_key (stat, current_time))

/-- The sort key of the port loop: `sorted` by the `port_no` attribute. -/
def portLE (a b : PortStat) : Bool := a.port_no ≤ b.port_no

/-- The whole `_port_stats_reply_handler` over one reply body: process
the entries in ascending `port_no` order, threading the history. -/
def processPortBatch (datapath_id : Nat) (hist : PortHistory) (current_time : ℚ)
    (body : List PortStat) : List PortRow × PortHistory :=
  (pySorted portLE body).foldl
    (fun acc stat =>
      let r := processPortStat datapath_id acc.2 current_time stat
      (acc.1 ++ r.1.toList, r.2))
    ([], hist)

/-- One OpenFlow action; `port = none` models an action object without
a `port` attribute (the `hasattr` test on it false). -/
structure FlowAction where
  port : Option Nat
  deriving DecidableEq

/-- One OpenFlow instruction; `actions = none` models an instruction
object without an `actions` attribute. -/
structure FlowInstruction where
  actions : Option (List FlowAction)
  deriving DecidableEq

/-- Raw data of one entry of an `OFPFlowStatsReply` body.  The match
fields are optional, modelling `stat.match.get(...)` on a possibly
missing key. -/
structure FlowStat where
  priority : Nat
  in_port : Option Nat
  eth_dst : Option String
  instructions : List FlowInstruction
  packet_count : Nat
  byte_count : Nat
  duration_sec : Nat
  deriving DecidableEq

/-- Lines 122-131 of `sdn_monitor.py`: extract the output port of the
first action of the first instruction; `none` is the `N/A` marker
used when any of the three levels is missing. -/
def extractOutPort (stat : FlowStat) : Option Nat :=
  match stat.instructions with
  | [] => none
  | instruction :: _ =>
    match instruction.actions with
    | none => none
    | some [] => none
    | some (action :: _) => action.port

/-- One row written to `flow_stats.csv`.  The `flow_id` string
`f"{in_port}-{eth_dst}-{out_port}"` is represented by its three
components (`none` prints as `N/A`). -/
structure FlowRow where
  timestamp : ℚ
  datapath_id : Nat
  in_port : Option Nat
  eth_dst : Option String
  out_port : Option Nat
  packet_count : Nat
  byte_count : Nat
  duration_sec : Nat
  throughput_bps : ℚ
  packet_rate_pps : ℚ
  deriving DecidableEq

/-- The key `f"{datapath_id}-{flow_id}"` of `self.flow_stats_history`,
represented structurally. -/
abbrev FlowKey := Nat × (Option Nat × Option String × Option Nat)

/-- The `self.flow_stats_history` dict. -/
abbrev FlowHistory := List (FlowKey × (FlowStat × ℚ))

/-- Build the history key of a flow entry (lines 133-134). -/
def flowKey (datapath_id : Nat) (stat : FlowStat) : FlowKey :=
  (datapath_id, (stat.in_port, stat.eth_dst, extractOutPort stat))

/-- Lines 117-151 of `sdn_monitor.py` restricted to one flow entry:
the CSV row written for it.  The rates are cumulative
(`byte_count * 8 / duration_sec`, `packet_count / duration_sec`) and
zero when `duration_sec` is zero; no history is consulted. -/
def flowRow (datapath_id : Nat) (current_time : ℚ) (stat : FlowStat) : FlowRow :=
  let throughput_bps : ℚ :=
    if 0 < stat.duration_sec then (stat.byte_count : ℚ) * 8 / (stat.duration_sec : ℚ) else 0
  let packet_rate_pps : ℚ :=
    if 0 < stat.duration_sec then (stat.packet_count : ℚ) / (stat.duration_sec : ℚ) else 0
  ⟨current_time, datapath_id, stat.in_port, stat.eth_dst, extractOutPort stat,
    stat.packet_count, stat.byte_count, stat.duration_sec,
    throughput_bps, packet_rate_pps⟩

/-- The sort key of the flow loop (lines 113-115):
`in_port` (default 0) paired with `eth_dst` as a string (default empty)
compared lexicographically. -/
def flowLE (a b : FlowStat) : Bool :=
  match compare (a.in_port.getD 0) (b.in_port.getD 0) with
  | Ordering.lt => true
  | Ordering.gt => false
  | Ordering.eq => compare (a.eth_dst.getD "") (b.eth_dst.getD "") ≠ Ordering.gt

/-- The whole `_flow_stats_reply_handler` over one reply body: keep
the entries with `flow.priority == 1`, sort them stably by the key
above, then for each one store the sample into the history and emit
its row. -/
def processFlowBatch (datapath_id : Nat) (hist : FlowHistory) (current_time : ℚ)
    (body : List FlowStat) : List FlowRow × FlowHistory :=
  (pySorted flowLE (body.filter (fun s => s.priority == 1))).foldl
    (fun acc stat =>
      (acc.1 ++ [flowRow datapath_id current_time stat],
       dictStore acc.2 (flowKey datapath_id stat) (stat, current_time)))
    ([], hist)

/-- The `self.datapaths` registry: datapath id mapped to an opaque
handle standing for the datapath object. -/
abbrev Registry := List (Nat × Nat)

/-- Lines 68-71 of `_state_change_handler` (`MAIN_DISPATCHER` case):
register the datapath only if its id is not yet present. -/
def stateChangeUp (datapaths : Registry) (dpid dp : Nat) : Registry :=
  if dictContains datapaths dpid then datapaths else dictStore datapaths dpid dp

/-- Lines 72-75 of `_state_change_handler` (`DEAD_DISPATCHER` case):
delete the datapath only if its id is present. -/
def stateChangeDown (datapaths : Registry) (dpid : Nat) : Registry :=
  if dictContains datapaths dpid then dictErase datapaths dpid else datapaths

/-- The statistics requests the monitor can send to a switch.
`queueStats` is the OpenFlow queue-statistics request, which the
protocol offers but `_request_stats` never constructs. -/
inductive StatsRequest : Type
  | flowStats (dpid : Nat)
  | portStats (dpid : Nat)
  | queueStats (dpid : Nat)
  deriving DecidableEq

/-- Lines 96-101 of `_request_stats`: an `OFPFlowStatsRequest`
followed by an `OFPPortStatsRequest`. -/
def requestStats (dpid : Nat) : List StatsRequest :=
  [StatsRequest.flowStats dpid, StatsRequest.portStats dpid]

/-- One iteration of the `while True` loop of `_monitor` (lines
81-85): the requests sent, over all registered datapaths. -/
def monitorTick (datapaths : Registry) : List StatsRequest :=
  datapaths.flatMap (fun d => requestStats d.1)

/-- The `hub.sleep(10)` between two iterations of `_monitor`. -/
def monitorIntervalSeconds : Nat := 10

/-! ### Helper lemmas -/

theorem insertSorted_perm {α : Type} (le : α → α → Bool) (x : α) (l : List α) :
    (insertSorted le x l).Perm (x :: l) := by
  induction l with
  | nil => simp [insertSorted]
  | cons y ys ih =>
    simp only [insertSorted]
    split
    · exact List.Perm.refl _
    · exact (List.Perm.cons y ih).trans (List.Perm.swap x y ys)

theorem pySorted_perm {α : Type} (le : α → α → Bool) (l : List α) :
    (pySorted le l).Perm l := by
  induction l with
  | nil => exact List.Perm.refl _
  | cons x xs ih =>
    exact (insertSorted_perm le x (pySorted le xs)).trans (List.Perm.cons x ih)

/-- The rows accumulated by the flow loop are exactly the accumulator
followed by one row per processed entry; the flow history threading
never influences a row. -/
theorem flowFold_rows (datapath_id : Nat) (current_time : ℚ) :
    ∀ (l : List FlowStat) (rows : List FlowRow) (hist : FlowHistory),
      (l.foldl (fun acc stat =>
          (acc.1 ++ [flowRow datapath_id current_time stat],
           dictStore acc.2 (flowKey datapath_id stat) (stat, current_time)))
        (rows, hist)).1 = rows ++ l.map (flowRow datapath_id current_time) := by
  intro l
  induction l with
  | nil => intro rows hist; simp
  | cons s t ih =>
    intro rows hist
    simp only [List.foldl_cons, List.map_cons]
    rw [ih]
    simp

/-- The rows emitted by `_flow_stats_reply_handler` are the per-entry
rows of the sorted, priority-filtered body, independent of the
incoming flow history. -/
theorem processFlowBatch_rows (datapath_id : Nat) (hist : FlowHistory)
    (current_time : ℚ) (body : List FlowStat) :
    (processFlowBatch datapath_id hist current_time body).1 =
      (pySorted flowLE (body.filter (fun s => s.priority == 1))).map
        (flowRow datapath_id current_time) := by
  rw [processFlowBatch, flowFold_rows]
  simp

/-- Every row actually emitted by one iteration of the port loop
carries a non-reserved port number. -/
theorem processPortStat_port_no_lt (datapath_id : Nat) (hist : PortHistory)
    (current_time : ℚ) (stat : PortStat) (row : PortRow)
    (h : (processPortStat datapath_id hist current_time stat).1 = some row) :
    row.port_no < 0xffffff00 := by
  by_cases hres : stat.port_no ≥ 0xffffff00
  · simp [processPortStat, hres] at h
  · simp only [processPortStat, if_neg hres] at h
    simp only [Option.some.injEq] at h
    have hpn : row.port_no = stat.port_no := by rw [← h]
    omega

/-- Fold invariant for the port loop: all emitted rows have
non-reserved port numbers. -/
theorem portFold_rows_lt (datapath_id : Nat) (current_time : ℚ) :
    ∀ (l : List PortStat) (rows : List PortRow) (hist : PortHistory),
      (∀ row ∈ rows, row.port_no < 0xffffff00) →
      ∀ row ∈ (l.foldl (fun acc stat =>
          let r := processPortStat datapath_id acc.2 current_time stat
          (acc.1 ++ r.1.toList, r.2)) (rows, hist)).1,
        row.port_no < 0xffffff00 := by
  intro l
  induction l with
  | nil => intro rows hist hrows row hrow; exact hrows row hrow
  | cons s t ih =>
    intro rows hist hrows row hrow
    refine ih _ _ ?_ row hrow
    intro r hr
    rcases List.mem_append.mp hr with h | h
    · exact hrows r h
    · rcases Option.mem_toList.mp h with hsome
      exact processPortStat_port_no_lt datapath_id hist current_time s r hsome

/-- Evaluation of `portRates` when a previous sample exists and the
time delta is positive. -/
theorem portRates_pos {hist : PortHistory} {key : Nat × Nat} {t : ℚ}
    (stat : PortStat) {prev : PortStat} {pt : ℚ}
    (hfind : dictFind hist key = some (prev, pt)) (htd : 0 < t - pt) :
    portRates hist key t stat =
      (((stat.rx_bytes : ℚ) - (prev.rx_bytes : ℚ)) * 8 / (t - pt),
       ((stat.tx_bytes : ℚ) - (prev.tx_bytes : ℚ)) * 8 / (t - pt),
       ((stat.rx_packets : ℚ) - (prev.rx_packets : ℚ)) / (t - pt),
       ((stat.tx_packets : ℚ) - (prev.tx_packets : ℚ)) / (t - pt)) := by
  simp only [portRates, hfind]
  split
  · rfl
  · next h => exact absurd htd h

/-- Evaluation of `portRates` when the time delta is not positive. -/
theorem portRates_stale {hist : PortHistory} {key : Nat × Nat} {t : ℚ}
    (stat : PortStat) {prev : PortStat} {pt : ℚ}
    (hfind : dictFind hist key = some (prev, pt)) (hnt : ¬ 0 < t - pt) :
    portRates hist key t stat = (0, 0, 0, 0) := by
  simp only [portRates, hfind]
  split
  · next h => exact absurd h hnt
  · rfl

/-- Evaluation of `portRates` when the key has no previous sample. -/
theorem portRates_none {hist : PortHistory} {key : Nat × Nat} {t : ℚ}
    (stat : PortStat) (hfind : dictFind hist key = none) :
    portRates hist key t stat = (0, 0, 0, 0) := by
  simp only [portRates, hfind]

/-! ### Concrete fixtures used by counterexamples and witnesses -/

/-- A priority-1 flow entry: 125000 bytes, 100 packets, alive 5 s,
output action towards port 2. -/
def fsA : FlowStat :=
  ⟨1, some 1, some "00:00:00:00:00:02", [⟨some [⟨some 2⟩]⟩], 100, 125000, 5⟩

/-- An earlier sample of the same flow: zero counters. -/
def fsAPrev : FlowStat :=
  ⟨1, some 1, some "00:00:00:00:00:02", [⟨some [⟨some 2⟩]⟩], 0, 0, 0⟩

/-- Flow history holding the earlier sample of `fsA`, taken at time 0. -/
def fhistA : FlowHistory := [(flowKey 7 fsAPrev, (fsAPrev, 0))]

/-- A port sample on port 1: 125000 rx-bytes, 20 rx-packets. -/
def psB : PortStat := ⟨1, 20, 30, 125000, 250000, 2, 0⟩

/-- The earlier port sample: 0 rx-bytes. -/
def psBPrev : PortStat := ⟨1, 10, 5, 0, 0, 0, 0⟩

/-- Port history holding `psBPrev` for key `(7, 1)`, taken at time 0. -/
def phistB : PortHistory := [((7, 1), (psBPrev, 0))]

/-- A port sample whose rx-byte counter went down to 1000. -/
def psC : PortStat := ⟨1, 0, 0, 1000, 0, 0, 0⟩

/-- The earlier port sample with rx-byte counter 50000. -/
def psCPrev : PortStat := ⟨1, 0, 0, 50000, 0, 0, 0⟩

/-- Port history holding `psCPrev` for key `(1, 1)`, taken at time 0. -/
def phistC : PortHistory := [((1, 1), (psCPrev, 0))]

/-- A port sample with 20 cumulative packets and 2 cumulative errors. -/
def psD : PortStat := ⟨1, 20, 0, 0, 0, 2, 0⟩

/-- The earlier port sample with 10 packets and no errors. -/
def psDPrev : PortStat := ⟨1, 10, 0, 0, 0, 0, 0⟩

/-- Port history holding `psDPrev` for key `(1, 1)`, taken at time 0. -/
def phistD : PortHistory := [((1, 1), (psDPrev, 0))]

/-- A flow entry with priority 2 — above the table-miss baseline. -/
def fsE : FlowStat :=
  ⟨2, some 1, some "00:00:00:00:00:02", [⟨some [⟨some 2⟩]⟩], 100, 125000, 5⟩

/-- A priority-0 table-miss flow entry. -/
def fsF : FlowStat := ⟨0, none, none, [], 3, 300, 4⟩

/-- A malformed priority-1 flow entry: no instructions, hence no
output action. -/
def fsM : FlowStat := ⟨1, some 3, some "00:00:00:00:00:05", [], 7, 700, 0⟩

/-- A second well-formed priority-1 flow entry. -/
def fsG : FlowStat :=
  ⟨1, some 2, some "00:00:00:00:00:04", [⟨some [⟨some 1⟩]⟩], 50, 5000, 10⟩

/-! ### Claims -/

/-- Claim C1, counterexample: with the reference parameters the
builder creates 16 aggregation-to-edge links (2 pods, each with 2
aggregation switches fully linked to its 4 edge switches), not the 8
the claim states. -/
theorem claim1_counterexample :
    (treeTopoLinks.filter isAggEdgeLink).length ≠ 8 := by decide

/-- Claim C1 (amended): the topology builder produces exactly 2 core
switches, 4 aggregation switches, 8 edge switches and 16 hosts, and
exactly 8 core-to-aggregation links, 16 aggregation-to-edge links and
16 edge-to-host links (40 links in all), with no two links connecting
the same ordered pair of endpoints. -/
theorem claim1_topology_counts :
    coreSwitches.length = 2 ∧ aggSwitches.length = 4 ∧
    edgeSwitches.length = 8 ∧ hosts.length = 16 ∧
    (treeTopoLinks.filter isCoreAggLink).length = 8 ∧
    (treeTopoLinks.filter isAggEdgeLink).length = 16 ∧
    (treeTopoLinks.filter isEdgeHostLink).length = 16 ∧
    treeTopoLinks.length = 40 ∧
    (treeTopoLinks.map (fun l => (l.src, l.dst))).Nodup := by decide

/-- Claim C5, counterexample: with datapath 1 registered, a tick sends
the flow- and port-statistics requests but no queue-statistics
request, contradicting the claim that all three are issued. -/
theorem claim5_counterexample :
    StatsRequest.queueStats 1 ∉ monitorTick [(1, 42)] ∧
    StatsRequest.flowStats 1 ∈ monitorTick [(1, 42)] ∧
    StatsRequest.portStats 1 ∈ monitorTick [(1, 42)] := by decide

/-- Claim C5 (amended): on every tick of the polling loop the
aggregator issues flow-statistics and port-statistics requests to
every currently registered device — never a queue-statistics request —
with a fixed 10-second interval between ticks. -/
theorem claim5_tick_requests (datapaths : Registry) (d : Nat × Nat)
    (hd : d ∈ datapaths) :
    StatsRequest.flowStats d.1 ∈ monitorTick datapaths ∧
    StatsRequest.portStats d.1 ∈ monitorTick datapaths ∧
    (∀ i : Nat, StatsRequest.queueStats i ∉ monitorTick datapaths) ∧
    monitorIntervalSeconds = 10 := by
  refine ⟨?_, ?_, ?_, rfl⟩
  · exact List.mem_flatMap.mpr ⟨d, hd, by simp [requestStats]⟩
  · exact List.mem_flatMap.mpr ⟨d, hd, by simp [requestStats]⟩
  · intro i hi
    rcases List.mem_flatMap.mp hi with ⟨e, he, hmem⟩
    simp [requestStats] at hmem

/-- Witness for C5 at the one-device registry `[(1, 42)]`. -/
theorem claim5_witness :
    ((1, 42) : Nat × Nat) ∈ ([(1, 42)] : Registry) ∧
    StatsRequest.flowStats 1 ∈ monitorTick [(1, 42)] ∧
    StatsRequest.portStats 1 ∈ monitorTick [(1, 42)] ∧
    (∀ i : Nat, StatsRequest.queueStats i ∉ monitorTick [(1, 42)]) ∧
    monitorIntervalSeconds = 10 :=
  ⟨by decide, claim5_tick_requests [(1, 42)] (1, 42) (by decide)⟩

/-- Claim C2, counterexample: a flow key with a stored previous sample
taken 10 seconds earlier with byte count 0, and a current sample with
byte count 125000 and flow duration 5 s, is emitted with
`throughput_bps = 200000` — the flow handler divides the cumulative
byte counter by `duration_sec`, not the byte delta by the 10-second
sample distance, which would give 100000. -/
theorem claim2_counterexample :
    flowKey 7 fsA = flowKey 7 fsAPrev ∧
    dictFind fhistA (flowKey 7 fsA) = some (fsAPrev, 0) ∧
    (processFlowBatch 7 fhistA 10 [fsA]).1.map FlowRow.throughput_bps = [200000] ∧
    ((fsA.byte_count : ℚ) - (fsAPrev.byte_count : ℚ)) * 8 / (10 - 0) = 100000 ∧
    (200000 : ℚ) ≠ 100000 := by
  refine ⟨by decide, by decide, ?_, by norm_num [fsA, fsAPrev], by norm_num⟩
  rw [processFlowBatch_rows]
  norm_num [fsA, pySorted, insertSorted, flowRow]

/-- Claim C2 (amended): the delta-based rate computation holds for
port entries: with a stored previous sample and a positive time delta,
`rx_bps`/`tx_bps` equal the byte delta times 8 over the time delta and
`rx_pps`/`tx_pps` equal the packet delta over the time delta (for the
0-to-125000-bytes-in-10-s example this gives 100000 bits/s).  Flow
entries do not use sample deltas: their rates are the cumulative
`byte_count * 8 / duration_sec` and `packet_count / duration_sec`. -/
theorem claim2_rates (datapath_id : Nat) (hist : PortHistory) (current_time : ℚ)
    (stat prev : PortStat) (prev_time : ℚ)
    (hres : stat.port_no < 0xffffff00)
    (hfind : dictFind hist (datapath_id, stat.port_no) = some (prev, prev_time))
    (htd : 0 < current_time - prev_time) :
    (processPortStat datapath_id hist current_time stat).1.map
        (fun r => (r.rx_bps, r.tx_bps, r.rx_pps, r.tx_pps)) =
      some
        (((stat.rx_bytes : ℚ) - (prev.rx_bytes : ℚ)) * 8 / (current_time - prev_time),
         ((stat.tx_bytes : ℚ) - (prev.tx_bytes : ℚ)) * 8 / (current_time - prev_time),
         ((stat.rx_packets : ℚ) - (prev.rx_packets : ℚ)) / (current_time - prev_time),
         ((stat.tx_packets : ℚ) - (prev.tx_packets : ℚ)) / (current_time - prev_time)) ∧
    (∀ fs : FlowStat, 0 < fs.duration_sec →
      (flowRow datapath_id current_time fs).throughput_bps =
        (fs.byte_count : ℚ) * 8 / (fs.duration_sec : ℚ) ∧
      (flowRow datapath_id current_time fs).packet_rate_pps =
        (fs.packet_count : ℚ) / (fs.duration_sec : ℚ)) := by
  constructor
  · have hres2 : ¬ stat.port_no ≥ 0xffffff00 := by omega
    simp only [processPortStat, if_neg hres2, portRates_pos stat hfind htd]
    rfl
  · intro fs hd
    simp [flowRow, if_pos hd]

/-- Witness for C2: the port example with byte counts 0 then 125000,
10 seconds apart, yields `rx_bps = 100000`; the flow entry `fsA` gets
the cumulative rate. -/
theorem claim2_witness :
    psB.port_no < 0xffffff00 ∧
    dictFind phistB (7, psB.port_no) = some (psBPrev, 0) ∧
    ((0 : ℚ) < 10 - 0) ∧
    (processPortStat 7 phistB 10 psB).1.map
        (fun r => (r.rx_bps, r.tx_bps, r.rx_pps, r.tx_pps)) =
      some
        (((psB.rx_bytes : ℚ) - (psBPrev.rx_bytes : ℚ)) * 8 / (10 - 0),
         ((psB.tx_bytes : ℚ) - (psBPrev.tx_bytes : ℚ)) * 8 / (10 - 0),
         ((psB.rx_packets : ℚ) - (psBPrev.rx_packets : ℚ)) / (10 - 0),
         ((psB.tx_packets : ℚ) - (psBPrev.tx_packets : ℚ)) / (10 - 0)) ∧
    ((psB.rx_bytes : ℚ) - (psBPrev.rx_bytes : ℚ)) * 8 / (10 - 0) = 100000 ∧
    0 < fsA.duration_sec ∧
    (flowRow 7 10 fsA).throughput_bps = (fsA.byte_count : ℚ) * 8 / (fsA.duration_sec : ℚ) :=
  ⟨by decide, by decide, by norm_num,
   (claim2_rates 7 phistB 10 psB psBPrev 0 (by decide) (by decide) (by norm_num)).1,
   by norm_num [psB, psBPrev],
   by decide,
   ((claim2_rates 7 phistB 10 psB psBPrev 0 (by decide) (by decide) (by norm_num)).2
     fsA (by decide)).1⟩

/-- Claim C3, counterexample: a port sample with byte count 50000
followed 10 s later by one with byte count 1000 is emitted with
`rx_bps = -39200`, a negative value, not the 0 the claim states. -/
theorem claim3_counterexample :
    dictFind phistC (1, psC.port_no) = some (psCPrev, 0) ∧
    psC.rx_bytes < psCPrev.rx_bytes ∧
    (processPortStat 1 phistC 10 psC).1.map PortRow.rx_bps = some (-39200) ∧
    ((-39200 : ℚ) ≠ 0) := by
  refine ⟨by decide, by decide, ?_, by norm_num⟩
  norm_num [processPortStat, portRates, dictFind, phistC, psC, psCPrev]

/-- Claim C3 (amended): when a counter has decreased between two
consecutive samples of the same key, the emitted rate is the negative
delta rate — strictly below zero, not clamped to zero. -/
theorem claim3_negative_delta (datapath_id : Nat) (hist : PortHistory)
    (current_time : ℚ) (stat prev : PortStat) (prev_time : ℚ)
    (hres : stat.port_no < 0xffffff00)
    (hfind : dictFind hist (datapath_id, stat.port_no) = some (prev, prev_time))
    (htd : 0 < current_time - prev_time)
    (hdec : stat.rx_bytes < prev.rx_bytes) :
    (processPortStat datapath_id hist current_time stat).1.map PortRow.rx_bps =
      some (((stat.rx_bytes : ℚ) - (prev.rx_bytes : ℚ)) * 8 / (current_time - prev_time)) ∧
    ((stat.rx_bytes : ℚ) - (prev.rx_bytes : ℚ)) * 8 / (current_time - prev_time) < 0 := by
  constructor
  · have hres2 : ¬ stat.port_no ≥ 0xffffff00 := by omega
    simp only [processPortStat, if_neg hres2, portRates_pos stat hfind htd]
    rfl
  · apply div_neg_of_neg_of_pos _ htd
    have hlt : (stat.rx_bytes : ℚ) < (prev.rx_bytes : ℚ) := by exact_mod_cast hdec
    have hneg : (stat.rx_bytes : ℚ) - (prev.rx_bytes : ℚ) < 0 := by linarith
    exact mul_neg_of_neg_of_pos hneg (by norm_num)

/-- Witness for C3 at the 50000-to-1000 counter reset. -/
theorem claim3_witness :
    psC.port_no < 0xffffff00 ∧
    dictFind phistC (1, psC.port_no) = some (psCPrev, 0) ∧
    ((0 : ℚ) < 10 - 0) ∧
    psC.rx_bytes < psCPrev.rx_bytes ∧
    (processPortStat 1 phistC 10 psC).1.map PortRow.rx_bps =
      some (((psC.rx_bytes : ℚ) - (psCPrev.rx_bytes : ℚ)) * 8 / (10 - 0)) ∧
    ((psC.rx_bytes : ℚ) - (psCPrev.rx_bytes : ℚ)) * 8 / (10 - 0) < 0 :=
  ⟨by decide, by decide, by norm_num, by decide,
   (claim3_negative_delta 1 phistC 10 psC psCPrev 0
     (by decide) (by decide) (by norm_num) (by decide)).1,
   (claim3_negative_delta 1 phistC 10 psC psCPrev 0
     (by decide) (by decide) (by norm_num) (by decide)).2⟩

/-- Claim C4, counterexample: the flow entry `fsA`, whose key has no
stored previous sample, is emitted with `throughput_bps = 200000`, not
zero — the flow-handler rates come from the cumulative counters and
`duration_sec`, so the cold-start-means-zero-rates policy does not
hold for flow entries. -/
theorem claim4_counterexample :
    dictFind ([] : FlowHistory) (flowKey 7 fsA) = none ∧
    (processFlowBatch 7 [] 10 [fsA]).1.map FlowRow.throughput_bps = [200000] ∧
    ((200000 : ℚ) ≠ 0) := by
  refine ⟨by decide, ?_, by norm_num⟩
  rw [processFlowBatch_rows]
  norm_num [fsA, pySorted, insertSorted, flowRow]

/-- Claim C4 (amended): for port entries the policy holds: with no
stored previous sample, or a non-positive elapsed time since it, the
row is still emitted, its four delta-rate fields are zero, and the new
sample is stored.  A flow entry is likewise still emitted and its
sample stored, but its rate fields are computed from the cumulative
counters and `duration_sec` regardless of history (and the port
error-rate field is likewise history-independent). -/
theorem claim4_cold_start (datapath_id : Nat) (hist : PortHistory)
    (current_time : ℚ) (stat : PortStat)
    (hres : stat.port_no < 0xffffff00)
    (hcold : dictFind hist (datapath_id, stat.port_no) = none ∨
      ∃ prev prev_time,
        dictFind hist (datapath_id, stat.port_no) = some (prev, prev_time) ∧
        ¬ 0 < current_time - prev_time) :
    (processPortStat datapath_id hist current_time stat).1.map
        (fun r => (r.rx_bps, r.tx_bps, r.rx_pps, r.tx_pps)) = some (0, 0, 0, 0) ∧
    (processPortStat datapath_id hist current_time stat).2 =
      dictStore hist (datapath_id, stat.port_no) (stat, current_time) ∧
    (∀ (fhist : FlowHistory) (fs : FlowStat), fs.priority = 1 →
      (processFlowBatch datapath_id fhist current_time [fs]).1 =
        [flowRow datapath_id current_time fs] ∧
      (processFlowBatch datapath_id fhist current_time [fs]).2 =
        dictStore fhist (flowKey datapath_id fs) (fs, current_time)) := by
  have hres2 : ¬ stat.port_no ≥ 0xffffff00 := by omega
  have hrates : portRates hist (datapath_id, stat.port_no) current_time stat = (0, 0, 0, 0) := by
    rcases hcold with h | ⟨prev, prev_time, hfind, hnt⟩
    · exact portRates_none stat h
    · exact portRates_stale stat hfind hnt
  refine ⟨?_, ?_, ?_⟩
  · simp only [processPortStat, if_neg hres2, hrates]
    rfl
  · simp only [processPortStat, if_neg hres2]
  · intro fhist fs hp
    have hfilter : [fs].filter (fun s => s.priority == 1) = [fs] := by
      simp [List.filter, hp]
    constructor
    · rw [processFlowBatch_rows, hfilter]
      simp [pySorted, insertSorted]
    · simp [processFlowBatch, hfilter, pySorted, insertSorted]

/-- Witness for C4: port 1 of datapath 7 with an empty history gets a
row with four zero rates and its sample stored; the priority-1 flow
entry `fsA` is emitted and stored. -/
theorem claim4_witness :
    psB.port_no < 0xffffff00 ∧
    dictFind ([] : PortHistory) (7, psB.port_no) = none ∧
    (processPortStat 7 [] 10 psB).1.map
        (fun r => (r.rx_bps, r.tx_bps, r.rx_pps, r.tx_pps)) = some (0, 0, 0, 0) ∧
    (processPortStat 7 [] 10 psB).2 = dictStore [] (7, psB.port_no) (psB, 10) ∧
    fsA.priority = 1 ∧
    (processFlowBatch 7 [] 10 [fsA]).1 = [flowRow 7 10 fsA] ∧
    (processFlowBatch 7 [] 10 [fsA]).2 = dictStore [] (flowKey 7 fsA) (fsA, 10) :=
  ⟨by decide, by decide,
   (claim4_cold_start 7 [] 10 psB (by decide) (Or.inl (by decide))).1,
   (claim4_cold_start 7 [] 10 psB (by decide) (Or.inl (by decide))).2.1,
   by decide,
   ((claim4_cold_start 7 [] 10 psB (by decide) (Or.inl (by decide))).2.2 [] fsA (by decide)).1,
   ((claim4_cold_start 7 [] 10 psB (by decide) (Or.inl (by decide))).2.2 [] fsA (by decide)).2⟩

/-- Claim C7, counterexample: with a previous sample of 10 packets and
0 errors and a current sample of 20 packets and 2 errors, the emitted
error rate is 10 percent — 100 times cumulative errors over cumulative
packets — whereas the claimed delta formula
`100 * error_delta / max(1, packet_delta_total)` gives 20 percent. -/
theorem claim7_counterexample :
    dictFind phistD (1, psD.port_no) = some (psDPrev, 0) ∧
    (processPortStat 1 phistD 10 psD).1.map PortRow.error_rate_percent = some 10 ∧
    100 * (((psD.rx_errors + psD.tx_errors : Nat) : ℚ) -
        ((psDPrev.rx_errors + psDPrev.tx_errors : Nat) : ℚ)) /
      max 1 (((psD.rx_packets + psD.tx_packets : Nat) : ℚ) -
        ((psDPrev.rx_packets + psDPrev.tx_packets : Nat) : ℚ)) = 20 ∧
    ((10 : ℚ) ≠ 20) := by
  refine ⟨by decide, ?_, by norm_num [psD, psDPrev], by norm_num⟩
  norm_num [processPortStat, portRates, dictFind, phistD, psD, psDPrev]

/-- Claim C7 (amended): the error-rate field of every emitted port row
is computed from the cumulative counters of the current sample, not from
deltas: it is `(rx_errors + tx_errors) / (rx_packets + tx_packets) * 100`
when the cumulative packet total is positive and 0 otherwise — division
by zero is avoided by that positivity test, not by flooring a delta
divisor at 1 — and it does not depend on the stored history. -/
theorem claim7_error_rate (datapath_id : Nat) (hist : PortHistory)
    (current_time : ℚ) (stat : PortStat) (hres : stat.port_no < 0xffffff00) :
    (processPortStat datapath_id hist current_time stat).1.map PortRow.error_rate_percent =
      some (if 0 < stat.rx_packets + stat.tx_packets
        then ((stat.rx_errors + stat.tx_errors : Nat) : ℚ) /
          ((stat.rx_packets + stat.tx_packets : Nat) : ℚ) * 100
        else 0) := by
  have hres2 : ¬ stat.port_no ≥ 0xffffff00 := by omega
  simp only [processPortStat, if_neg hres2]
  simp

/-- Witness for C7 at the sample `psD` (20 packets, 2 errors). -/
theorem claim7_witness :
    psD.port_no < 0xffffff00 ∧
    (processPortStat 1 phistD 10 psD).1.map PortRow.error_rate_percent =
      some (if 0 < psD.rx_packets + psD.tx_packets
        then ((psD.rx_errors + psD.tx_errors : Nat) : ℚ) /
          ((psD.rx_packets + psD.tx_packets : Nat) : ℚ) * 100
        else 0) :=
  ⟨by decide, claim7_error_rate 1 phistD 10 psD (by decide)⟩

/-- Claim C6, counterexample: a reply whose only flow entry has
priority 2 — strictly above the baseline priority 0 — emits no record:
the handler keeps exactly the entries with `priority == 1`, not every
entry above the baseline. -/
theorem claim6_counterexample :
    fsE.priority = 2 ∧ 0 < fsE.priority ∧
    (processFlowBatch 1 [] 0 [fsE]).1 = [] := by decide

/-- Claim C6 (amended): a flow entry is emitted if and only if its
priority equals exactly 1: one record per priority-1 entry, and a
reply none of whose entries has priority 1 — including priority-0
table-miss entries and entries with priority above 1 — emits
nothing. -/
theorem claim6_priority_filter (datapath_id : Nat) (hist : FlowHistory)
    (current_time : ℚ) (body : List FlowStat) :
    (processFlowBatch datapath_id hist current_time body).1.length =
      (body.filter (fun s => s.priority == 1)).length ∧
    ((∀ s ∈ body, s.priority ≠ 1) →
      (processFlowBatch datapath_id hist current_time body).1 = []) := by
  constructor
  · rw [processFlowBatch_rows, List.length_map, (pySorted_perm flowLE _).length_eq]
  · intro h
    have hfil : body.filter (fun s => s.priority == 1) = [] := by
      rw [List.filter_eq_nil_iff]
      intro a ha
      simpa using h a ha
    rw [processFlowBatch_rows, hfil]
    rfl

/-- Witness for C6: in the batch `[fsF, fsA, fsE]` (priorities 0, 1, 2)
exactly one record is emitted, and the batch `[fsF, fsE]` with no
priority-1 entry emits none. -/
theorem claim6_witness :
    (processFlowBatch 9 [] 0 [fsF, fsA, fsE]).1.length =
      ([fsF, fsA, fsE].filter (fun s => s.priority == 1)).length ∧
    ([fsF, fsA, fsE].filter (fun s => s.priority == 1)).length = 1 ∧
    (∀ s ∈ [fsF, fsE], s.priority ≠ 1) ∧
    (processFlowBatch 9 [] 0 [fsF, fsE]).1 = [] :=
  ⟨(claim6_priority_filter 9 [] 0 [fsF, fsA, fsE]).1, by decide, by decide,
   (claim6_priority_filter 9 [] 0 [fsF, fsE]).2 (by decide)⟩

/-- Claim C8: a priority-1 flow entry with no output action is emitted
with the `N/A` marker (modelled as `none`) in its output-port field,
and the records of all other entries of the same reply are still
emitted: the batch with the malformed entry emits, up to emission
order, exactly the record of the malformed entry plus the records the batch
without it would emit. -/
theorem claim8_malformed_isolation (datapath_id : Nat) (hist : FlowHistory)
    (current_time : ℚ) (xs ys : List FlowStat) (s : FlowStat)
    (hp : s.priority = 1) (hmal : extractOutPort s = none) :
    (flowRow datapath_id current_time s).out_port = none ∧
    ((processFlowBatch datapath_id hist current_time (xs ++ s :: ys)).1).Perm
      (flowRow datapath_id current_time s ::
        (processFlowBatch datapath_id hist current_time (xs ++ ys)).1) := by
  constructor
  · simp [flowRow, hmal]
  · rw [processFlowBatch_rows, processFlowBatch_rows]
    have h1 : (xs ++ s :: ys).filter (fun u => u.priority == 1) =
        xs.filter (fun u => u.priority == 1) ++
          s :: ys.filter (fun u => u.priority == 1) := by
      simp [List.filter_append, List.filter_cons, hp]
    have h2 : (xs ++ ys).filter (fun u => u.priority == 1) =
        xs.filter (fun u => u.priority == 1) ++ ys.filter (fun u => u.priority == 1) :=
      List.filter_append _ _
    rw [h1, h2]
    refine ((pySorted_perm flowLE _).map (flowRow datapath_id current_time)).trans ?_
    rw [List.map_append, List.map_cons]
    refine List.perm_middle.trans ?_
    rw [← List.map_append]
    exact List.Perm.cons _ ((pySorted_perm flowLE _).map (flowRow datapath_id current_time)).symm

/-- Witness for C8: the batch `[fsA, fsM, fsG]` whose middle entry has
no output action emits the `fsM` record with the unknown marker plus,
up to order, exactly the records of the batch `[fsA, fsG]`. -/
theorem claim8_witness :
    fsM.priority = 1 ∧ extractOutPort fsM = none ∧
    (flowRow 1 0 fsM).out_port = none ∧
    ((processFlowBatch 1 [] 0 ([fsA] ++ fsM :: [fsG])).1).Perm
      (flowRow 1 0 fsM :: (processFlowBatch 1 [] 0 ([fsA] ++ [fsG])).1) :=
  ⟨by decide, by decide,
   (claim8_malformed_isolation 1 [] 0 [fsA] [fsG] fsM (by decide) (by decide)).1,
   (claim8_malformed_isolation 1 [] 0 [fsA] [fsG] fsM (by decide) (by decide)).2⟩

/-- Claim C9: registration and deregistration are idempotent —
device-up for an already registered id and device-down for an absent
id both leave the registry unchanged. -/
theorem claim9_registration_idempotent (datapaths : Registry) (dpid dp : Nat) :
    (dictContains datapaths dpid = true → stateChangeUp datapaths dpid dp = datapaths) ∧
    (dictContains datapaths dpid = false → stateChangeDown datapaths dpid = datapaths) := by
  constructor
  · intro h; simp [stateChangeUp, h]
  · intro h; simp [stateChangeDown, h]

/-- Witness for C9 on the registry `[(1, 5)]`: device-up for the
registered id 1 and device-down for the absent id 2 are no-ops. -/
theorem claim9_witness :
    dictContains ([(1, 5)] : Registry) 1 = true ∧
    dictContains ([(1, 5)] : Registry) 2 = false ∧
    stateChangeUp [(1, 5)] 1 7 = [(1, 5)] ∧
    stateChangeDown [(1, 5)] 2 = [(1, 5)] :=
  ⟨by decide, by decide,
   (claim9_registration_idempotent [(1, 5)] 1 7).1 (by decide),
   (claim9_registration_idempotent [(1, 5)] 2 0).2 (by decide)⟩

/-- Claim C10: a port entry with a reserved port number (at least
`0xffffff00`) is skipped: no row is emitted, the history is left
untouched, and consequently every row a port batch emits carries a
non-reserved port number. -/
theorem claim10_reserved_ports_skipped (datapath_id : Nat) (hist : PortHistory)
    (current_time : ℚ) (stat : PortStat) (hres : stat.port_no ≥ 0xffffff00) :
    processPortStat datapath_id hist current_time stat = (none, hist) ∧
    ∀ (body : List PortStat) (row : PortRow),
      row ∈ (processPortBatch datapath_id hist current_time body).1 →
      row.port_no < 0xffffff00 := by
  constructor
  · simp [processPortStat, hres]
  · intro body row hrow
    rw [processPortBatch] at hrow
    exact portFold_rows_lt datapath_id current_time _ _ _ (by simp) row hrow

/-- Witness for C10 at the OpenFlow local port `0xfffffffe`. -/
theorem claim10_witness :
    (⟨0xfffffffe, 1, 2, 3, 4, 5, 6⟩ : PortStat).port_no ≥ 0xffffff00 ∧
    processPortStat 1 [] 10 ⟨0xfffffffe, 1, 2, 3, 4, 5, 6⟩ = (none, []) :=
  ⟨by decide, (claim10_reserved_ports_skipped 1 [] 10 ⟨0xfffffffe, 1, 2, 3, 4, 5, 6⟩ (by decide)).1⟩

end SDNLB
